import Mathlib

/- Shallow embedding of the fitness tracker program (src/main.py, with the
unchecked variant src/homework.py embedded separately below).  Python numbers
are modelled as exact rationals; Python exceptions as Except values; the
mutation of the cache attributes in main.py as explicit state passing, so each
method that writes an attribute returns the value together with the updated
record. -/

/-! Module level constants of src/main.py, lines 12 to 22. -/

def SWM : String := "SWM"

def RUN : String := "RUN"

def WLK : String := "WLK"

def LEN_FOR_SWM : Nat := 5

def LEN_FOR_RUN : Nat := 3

def LEN_FOR_WLK : Nat := 4

def NOT_FOUND : String := "Неизвестная тренировка."

def BAD_DATA : String := "Некорректный пакет данных."

/-! Semantics of the Python fixed point format specifications used in
InfoMessage.get_message: .3f rounds to three decimals (ties to even) without
digit grouping, and ,.3f additionally groups the integer digits in threes with
commas. -/

/-- Rounding of a rational to the nearest integer with ties to even, the
rounding applied by the Python fixed point formats. -/
def rne (q : ℚ) : ℤ :=
  let f : ℤ := ⌊q⌋
  if q - f < 1/2 then f
  else if (1 : ℚ)/2 < q - f then f + 1
  else if 2 ∣ f then f else f + 1

/-- Zero padding of a natural number below 1000 to exactly three digits. -/
def pad3 (n : Nat) : String :=
  (if n < 10 then "00" else if n < 100 then "0" else "") ++ toString n

/-- Comma insertion after every three characters of a reversed digit list. -/
def group3 : List Char → List Char
  | a :: b :: c :: d :: rest => a :: b :: c :: ',' :: group3 (d :: rest)
  | l => l

/-- Thousands grouping of a natural number, as produced by the comma flag of a
Python format specification. -/
def commaGroup (n : Nat) : String :=
  ((group3 (toString n).data.reverse).reverse).asString

/-- Python format specification .3f on a number q. -/
def format3 (q : ℚ) : String :=
  let n : ℤ := rne (q * 1000)
  (if n < 0 then "-" else "") ++ toString (n.natAbs / 1000)
    ++ ("." ++ pad3 (n.natAbs % 1000))

/-- Python format specification ,.3f on a number q. -/
def formatComma3 (q : ℚ) : String :=
  let n : ℤ := rne (q * 1000)
  (if n < 0 then "-" else "") ++ commaGroup (n.natAbs / 1000)
    ++ ("." ++ pad3 (n.natAbs % 1000))

/-! The InfoMessage dataclass, src/main.py lines 25 to 41. -/

structure InfoMessage where
  training_type : String
  duration : ℚ
  distance : ℚ
  speed : ℚ
  calories : ℚ
  deriving DecidableEq

/-- InfoMessage.get_message, the f string of src/main.py lines 37 to 41: the
duration is formatted with .3f, the other three numbers with ,.3f. -/
def InfoMessage.get_message (m : InfoMessage) : String :=
  "Тип тренировки: " ++ m.training_type
    ++ ("; Длительность: " ++ format3 m.duration)
    ++ (" ч.; Дистанция: " ++ formatComma3 m.distance)
    ++ (" км; Ср. скорость: " ++ formatComma3 m.speed)
    ++ (" км/ч; Потрачено ккал: " ++ formatComma3 m.calories)
    ++ "."

/-! The Training class hierarchy, src/main.py lines 44 to 188.  The three
concrete classes are modelled as one record type tagged by the class, and
method dispatch as a match on the tag. -/

inductive TKind where
  | running
  | sportsWalking
  | swimming
  deriving DecidableEq

/-- Class attribute LEN_STEP: 0.65 on Training (inherited by Running and
SportsWalking), overridden to 1.38 on Swimming. -/
def LEN_STEP : TKind → ℚ
  | .swimming => 1.38
  | _ => 0.65

def M_IN_KM : ℚ := 1000

def MIN_IN_HOUR : ℚ := 60

def CALORIES_MEAN_SPEED_MULTIPLIER : ℚ := 18

def CALORIES_MEAN_SPEED_SHIFT : ℚ := 1.79

def CALORIES_WEIGHT_FACTOR_1 : ℚ := 0.035

def CALORIES_WEIGHT_FACTOR_2 : ℚ := 0.029

def M_TO_SEC_CONVERTER : ℚ := 0.278

def CM_IN_METER : ℚ := 100

def SPEED_SWIM_SHIFT : ℚ := 1.1

def CALORIES_SPEED_SWIM_MULTIPLIER : ℚ := 2

/-- One Training instance.  The fields height, length_pool and count_pool only
carry data for the class named by kind; spent_calories and mean_speed_km_h are
the mutable cache attributes that the base constructor initialises to 0.0. -/
structure Training where
  kind : TKind
  action : ℚ
  duration : ℚ
  weight : ℚ
  height : ℚ := 0
  length_pool : ℚ := 0
  count_pool : ℚ := 0
  spent_calories : ℚ := 0
  mean_speed_km_h : ℚ := 0
  deriving DecidableEq

/-- Constructor Running(action, duration, weight). -/
def Running.mk (action duration weight : ℚ) : Training :=
  { kind := .running, action := action, duration := duration, weight := weight }

/-- Constructor SportsWalking(action, duration, weight, height): the height is
converted from centimeters to meters on construction. -/
def SportsWalking.mk (action duration weight height : ℚ) : Training :=
  { kind := .sportsWalking, action := action, duration := duration,
    weight := weight, height := height / CM_IN_METER }

/-- Constructor Swimming(action, duration, weight, length_pool, count_pool). -/
def Swimming.mk (action duration weight length_pool count_pool : ℚ) : Training :=
  { kind := .swimming, action := action, duration := duration, weight := weight,
    length_pool := length_pool, count_pool := count_pool }

/-- Training.get_distance, src/main.py lines 64 to 70; not overridden by any
subclass, so Swimming uses it with its own LEN_STEP of 1.38. -/
def Training.get_distance (t : Training) : ℚ :=
  t.action * LEN_STEP t.kind / M_IN_KM

/-- get_mean_speed: the generic formula of lines 72 to 76, overridden for
Swimming by lines 165 to 174.  The source assigns the result to the attribute
mean_speed_km_h, so the updated record is returned with the value. -/
def Training.get_mean_speed (t : Training) : ℚ × Training :=
  match t.kind with
  | .swimming =>
      let v := t.length_pool * t.count_pool / M_IN_KM / t.duration
      (v, { t with mean_speed_km_h := v })
  | _ =>
      let v := t.get_distance / t.duration
      (v, { t with mean_speed_km_h := v })

/-- get_spent_calories of the three concrete classes (lines 99 to 109, 130 to
143 and 176 to 188).  The source assigns the result to the attribute
spent_calories, so the updated record is returned with the value. -/
def Training.get_spent_calories (t : Training) : ℚ × Training :=
  match t.kind with
  | .running =>
      let p := t.get_mean_speed
      let v := (CALORIES_MEAN_SPEED_MULTIPLIER * p.1 + CALORIES_MEAN_SPEED_SHIFT)
        * p.2.weight / M_IN_KM * (p.2.duration * MIN_IN_HOUR)
      (v, { p.2 with spent_calories := v })
  | .sportsWalking =>
      let p := t.get_mean_speed
      let meters_in_sec := p.1 * M_TO_SEC_CONVERTER
      let v := (CALORIES_WEIGHT_FACTOR_1 * p.2.weight
          + (meters_in_sec ^ 2 / p.2.height)
            * CALORIES_WEIGHT_FACTOR_2 * p.2.weight)
        * p.2.duration * MIN_IN_HOUR
      (v, { p.2 with spent_calories := v })
  | .swimming =>
      let p := t.get_mean_speed
      let v := (p.1 + SPEED_SWIM_SHIFT) * CALORIES_SPEED_SWIM_MULTIPLIER
        * p.2.weight * p.2.duration
      (v, { p.2 with spent_calories := v })

/-- Python expression self.__class__.__name__ for the three concrete classes. -/
def className : TKind → String
  | .running => "Running"
  | .sportsWalking => "SportsWalking"
  | .swimming => "Swimming"

/-- Training.show_training_info, lines 82 to 90.  The constructor arguments are
evaluated left to right, so get_distance runs on the original record,
get_mean_speed mutates the cache, and get_spent_calories runs on the record
get_mean_speed returned. -/
def Training.show_training_info (t : Training) : InfoMessage × Training :=
  let d := t.get_distance
  let p := t.get_mean_speed
  let q := p.2.get_spent_calories
  ({ training_type := className t.kind, duration := t.duration,
     distance := d, speed := p.1, calories := q.1 }, q.2)

/-! Division checking instrumentation: the same formulas with every division
performed through divC, which reports a zero divisor instead of returning the
default value of rational division. -/

/-- Division that reports a zero divisor. -/
def divC (x y : ℚ) : Option ℚ := if y = 0 then none else some (x / y)

/-- get_distance with its one division checked. -/
def Training.get_distanceChecked (t : Training) : Option ℚ :=
  divC (t.action * LEN_STEP t.kind) M_IN_KM

/-- get_mean_speed with every division checked. -/
def Training.get_mean_speedChecked (t : Training) : Option ℚ :=
  match t.kind with
  | .swimming =>
      (divC (t.length_pool * t.count_pool) M_IN_KM).bind fun x =>
        divC x t.duration
  | _ => (t.get_distanceChecked).bind fun x => divC x t.duration

/-- get_spent_calories with every division checked. -/
def Training.get_spent_caloriesChecked (t : Training) : Option ℚ :=
  match t.kind with
  | .running =>
      (t.get_mean_speedChecked).bind fun ms =>
        (divC ((CALORIES_MEAN_SPEED_MULTIPLIER * ms + CALORIES_MEAN_SPEED_SHIFT)
          * t.weight) M_IN_KM).map fun x => x * (t.duration * MIN_IN_HOUR)
  | .sportsWalking =>
      (t.get_mean_speedChecked).bind fun ms =>
        let meters_in_sec := ms * M_TO_SEC_CONVERTER
        (divC (meters_in_sec ^ 2) t.height).map fun x =>
          (CALORIES_WEIGHT_FACTOR_1 * t.weight
            + x * CALORIES_WEIGHT_FACTOR_2 * t.weight)
            * t.duration * MIN_IN_HOUR
  | .swimming =>
      (t.get_mean_speedChecked).map fun ms =>
        (ms + SPEED_SWIM_SHIFT) * CALORIES_SPEED_SWIM_MULTIPLIER
          * t.weight * t.duration

/-! The dispatcher of src/main.py, lines 191 to 228.  A data list element that
is Python None is modelled as none. -/

/-- The dictionary training_classes of read_package, as a lookup function. -/
def training_classes (tag : String) : Option TKind :=
  if tag = SWM then some .swimming
  else if tag = RUN then some .running
  else if tag = WLK then some .sportsWalking
  else none

/-- The dictionary correct_list_length of checking_correct_data. -/
def correct_list_length (tag : String) : Option Nat :=
  if tag = SWM then some LEN_FOR_SWM
  else if tag = RUN then some LEN_FOR_RUN
  else if tag = WLK then some LEN_FOR_WLK
  else none

/-- checking_correct_data, lines 191 to 208: first the None membership test,
then the length test against the arity of the tag.  The outer none models the
KeyError a dictionary lookup with an unrecognized tag would raise, which
read_package makes unreachable by checking the tag first. -/
def checking_correct_data (wrk_typ : String) (dat_list : List (Option ℚ)) :
    Option Bool :=
  if none ∈ dat_list then some false
  else match correct_list_length wrk_typ with
    | none => none
    | some k => if dat_list.length ≠ k then some false else some true

/-- Positional unpacking of the data list into the constructor of the selected
class; read_package reaches it only after the null and arity checks, which
guarantee that every index below the arity holds an actual number. -/
def constructTraining (k : TKind) (dat : List (Option ℚ)) : Training :=
  let v (i : Nat) : ℚ := (dat.getD i none).getD 0
  match k with
  | .running => Running.mk (v 0) (v 1) (v 2)
  | .sportsWalking => SportsWalking.mk (v 0) (v 1) (v 2) (v 3)
  | .swimming => Swimming.mk (v 0) (v 1) (v 2) (v 3) (v 4)

/-- read_package, lines 211 to 228: tag membership first, then
checking_correct_data, then construction. -/
def read_package (workout_tpe : String) (data_list : List (Option ℚ)) :
    Except String Training :=
  match training_classes workout_tpe with
  | none => .error NOT_FOUND
  | some k =>
      if checking_correct_data workout_tpe data_list ≠ some true then
        .error BAD_DATA
      else .ok (constructTraining k data_list)

/-! The unchecked variant src/homework.py.  Its read_package (lines 173 to 183)
performs no validation: an unrecognized tag fails at the dictionary lookup
(KeyError), a list whose length differs from the arity of the selected
constructor fails at the call (TypeError), and list elements reach the
constructors as they are, None included; the constructors of Swimming and
Running only assign them, while the SportsWalking constructor divides the
height by 100, which on None is itself a TypeError. -/

inductive HwErr where
  | keyError
  | typeError
  deriving DecidableEq

/-- A record of the homework variant: field values are the raw list elements,
so an element that was None is stored as none. -/
structure HwTraining where
  kind : TKind
  action : Option ℚ
  duration : Option ℚ
  weight : Option ℚ
  height : Option ℚ := none
  length_pool : Option ℚ := none
  count_pool : Option ℚ := none
  deriving DecidableEq

/-- The SportsWalking constructor of homework.py, lines 109 to 116: it divides
the height argument by 100, so a None height raises a TypeError before the
record exists. -/
def Homework.SportsWalkingInit (action duration weight height : Option ℚ) :
    Except HwErr HwTraining :=
  match height with
  | none => .error .typeError
  | some h =>
      .ok { kind := .sportsWalking, action := action, duration := duration,
            weight := weight, height := some (h / 100) }

/-- read_package of src/homework.py, lines 173 to 183: the dictionary lookup
selects the class or raises KeyError, then the starred call passes the list
elements positionally, raising TypeError when the count differs from the
arity of the constructor. -/
def Homework.read_package (workout_tpe : String) (data_list : List (Option ℚ)) :
    Except HwErr HwTraining :=
  if workout_tpe = "SWM" then
    if data_list.length = 5 then
      .ok { kind := .swimming, action := data_list.getD 0 none,
            duration := data_list.getD 1 none,
            weight := data_list.getD 2 none,
            length_pool := data_list.getD 3 none,
            count_pool := data_list.getD 4 none }
    else .error .typeError
  else if workout_tpe = "RUN" then
    if data_list.length = 3 then
      .ok { kind := .running, action := data_list.getD 0 none,
            duration := data_list.getD 1 none,
            weight := data_list.getD 2 none }
    else .error .typeError
  else if workout_tpe = "WLK" then
    if data_list.length = 4 then
      Homework.SportsWalkingInit (data_list.getD 0 none)
        (data_list.getD 1 none) (data_list.getD 2 none) (data_list.getD 3 none)
    else .error .typeError
  else .error .keyError

/-! Theorems. -/

set_option maxRecDepth 20000 in
/-- Helper: the padded fraction part always has exactly three characters. -/
theorem pad3_length : ∀ m : Nat, m < 1000 → (pad3 m).length = 3 := by decide

/-- Claim C1: for every valid Running record (nonnegative action, positive
duration and weight), get_distance is action times 0.65 over 1000 and
get_spent_calories is exactly the closed running formula built on the mean
speed get_distance over duration. -/
theorem running_calories_formula (a d w : ℚ) (ha : 0 ≤ a) (hd : 0 < d)
    (hw : 0 < w) :
    (Running.mk a d w).get_distance = a * 0.65 / 1000 ∧
    ((Running.mk a d w).get_spent_calories).1
      = (18 * ((a * 0.65 / 1000) / d) + 1.79) * w / 1000 * (d * 60) :=
  ⟨rfl, rfl⟩

/-- Witness for C1 at the sample running input 15000, 1, 75. -/
theorem running_calories_formula_witness :
    (0 : ℚ) ≤ 15000 ∧ (0 : ℚ) < 1 ∧ (0 : ℚ) < 75 ∧
    ((Running.mk 15000 1 75).get_distance = 15000 * 0.65 / 1000 ∧
      ((Running.mk 15000 1 75).get_spent_calories).1
        = (18 * ((15000 * 0.65 / 1000) / 1) + 1.79) * 75 / 1000 * (1 * 60)) :=
  ⟨by norm_num, by norm_num, by norm_num,
    running_calories_formula 15000 1 75 (by norm_num) (by norm_num) (by norm_num)⟩

/-- Claim C2: for every valid Swimming record, get_mean_speed is pool length
times lap count over 1000 over duration, and the value is invariant under a
change of the action count alone. -/
theorem swimming_mean_speed_formula (a d w lp cp : ℚ) (hd : 0 < d) :
    ((Swimming.mk a d w lp cp).get_mean_speed).1 = lp * cp / 1000 / d ∧
    ∀ a2 : ℚ, ((Swimming.mk a2 d w lp cp).get_mean_speed).1
      = ((Swimming.mk a d w lp cp).get_mean_speed).1 :=
  ⟨rfl, fun _ => rfl⟩

/-- Witness for C2 at the sample swimming input 720, 1, 80, 25, 40. -/
theorem swimming_mean_speed_formula_witness :
    (0 : ℚ) < 1 ∧
    (((Swimming.mk 720 1 80 25 40).get_mean_speed).1 = 25 * 40 / 1000 / 1 ∧
      ∀ a2 : ℚ, ((Swimming.mk a2 1 80 25 40).get_mean_speed).1
        = ((Swimming.mk 720 1 80 25 40).get_mean_speed).1) :=
  ⟨by norm_num, swimming_mean_speed_formula 720 1 80 25 40 (by norm_num)⟩

/-- Counterexample to claim C3: two Swimming records that agree on pool length
25, lap count 40, duration 1 and weight 80 but have action counts 720 and 721
get different distances in their summaries, so the summary distance is not
determined by the pool data alone. -/
theorem swimming_distance_depends_on_action :
    ((Swimming.mk 720 1 80 25 40).show_training_info).1.distance = 0.9936 ∧
    ((Swimming.mk 721 1 80 25 40).show_training_info).1.distance
      ≠ ((Swimming.mk 720 1 80 25 40).show_training_info).1.distance := by
  constructor
  · show (720 * 1.38 / 1000 : ℚ) = 0.9936
    norm_num
  · show (721 * 1.38 / 1000 : ℚ) ≠ 720 * 1.38 / 1000
    norm_num

/-- Claim C3 amended: the summary distance of a Swimming record is the action
count times the stroke length 1.38 over 1000, computed by the inherited
get_distance; it therefore depends on the action count and is invariant under
changes of pool length and lap count, which only determine the mean speed. -/
theorem swimming_distance_formula (a d w lp cp : ℚ) :
    ((Swimming.mk a d w lp cp).show_training_info).1.distance = a * 1.38 / 1000 ∧
    ∀ lp2 cp2 : ℚ, ((Swimming.mk a d w lp2 cp2).show_training_info).1.distance
      = ((Swimming.mk a d w lp cp).show_training_info).1.distance :=
  ⟨rfl, fun _ _ => rfl⟩

/-- Helper: lookup of the three recognized tags in the class dictionary. -/
theorem training_classes_eval :
    training_classes SWM = some TKind.swimming ∧
    training_classes RUN = some TKind.running ∧
    training_classes WLK = some TKind.sportsWalking :=
  ⟨rfl, rfl, rfl⟩

/-- Claim C4: for every tag outside the recognized set and every data list,
read_package fails with the unknown activity message and returns no record. -/
theorem read_package_unknown_tag (tag : String) (dat : List (Option ℚ))
    (h : tag ∉ ([SWM, RUN, WLK] : List String)) :
    read_package tag dat = .error NOT_FOUND := by
  have h1 : ¬ tag = SWM := fun e => h (by simp [e])
  have h2 : ¬ tag = RUN := fun e => h (by simp [e])
  have h3 : ¬ tag = WLK := fun e => h (by simp [e])
  have ht : training_classes tag = none := by
    unfold training_classes
    rw [if_neg h1, if_neg h2, if_neg h3]
  unfold read_package
  rw [ht]

/-- Witness for C4 at the sample unknown tag XYZ. -/
theorem read_package_unknown_tag_witness :
    "XYZ" ∉ ([SWM, RUN, WLK] : List String) ∧
    read_package "XYZ" [some 1, some 2, some 3] = .error NOT_FOUND :=
  ⟨by decide, read_package_unknown_tag "XYZ" [some 1, some 2, some 3] (by decide)⟩

/-- Claim C5: for each recognized tag, a data list containing a null element
or of wrong length is rejected with the bad data message before any record is
built (the null test runs before the length test, and claim C4 shows the tag
test runs before both), and a well formed list is unpacked positionally into
the constructor of the matching class. -/
theorem read_package_validation :
    (∀ dat : List (Option ℚ), none ∈ dat →
      read_package SWM dat = .error BAD_DATA ∧
      read_package RUN dat = .error BAD_DATA ∧
      read_package WLK dat = .error BAD_DATA) ∧
    (∀ dat : List (Option ℚ), none ∉ dat →
      (dat.length ≠ LEN_FOR_SWM → read_package SWM dat = .error BAD_DATA) ∧
      (dat.length ≠ LEN_FOR_RUN → read_package RUN dat = .error BAD_DATA) ∧
      (dat.length ≠ LEN_FOR_WLK → read_package WLK dat = .error BAD_DATA)) ∧
    (∀ a d w lp cp : ℚ,
      read_package SWM [some a, some d, some w, some lp, some cp]
        = .ok (Swimming.mk a d w lp cp)) ∧
    (∀ a d w : ℚ,
      read_package RUN [some a, some d, some w] = .ok (Running.mk a d w)) ∧
    (∀ a d w h : ℚ,
      read_package WLK [some a, some d, some w, some h]
        = .ok (SportsWalking.mk a d w h)) := by
  refine ⟨fun dat h => ?_, fun dat h => ?_, fun a d w lp cp => rfl,
    fun a d w => rfl, fun a d w h => rfl⟩
  · have hc : ∀ tg : String, checking_correct_data tg dat = some false := by
      intro tg
      unfold checking_correct_data
      rw [if_pos h]
    refine ⟨?_, ?_, ?_⟩
    · unfold read_package
      rw [training_classes_eval.1, hc]
      rfl
    · unfold read_package
      rw [training_classes_eval.2.1, hc]
      rfl
    · unfold read_package
      rw [training_classes_eval.2.2, hc]
      rfl
  · refine ⟨fun hl => ?_, fun hl => ?_, fun hl => ?_⟩
    · have hc : checking_correct_data SWM dat = some false := by
        unfold checking_correct_data
        rw [if_neg h]
        show (if dat.length ≠ LEN_FOR_SWM then some false else some true) = _
        rw [if_pos hl]
      unfold read_package
      rw [training_classes_eval.1, hc]
      rfl
    · have hc : checking_correct_data RUN dat = some false := by
        unfold checking_correct_data
        rw [if_neg h]
        show (if dat.length ≠ LEN_FOR_RUN then some false else some true) = _
        rw [if_pos hl]
      unfold read_package
      rw [training_classes_eval.2.1, hc]
      rfl
    · have hc : checking_correct_data WLK dat = some false := by
        unfold checking_correct_data
        rw [if_neg h]
        show (if dat.length ≠ LEN_FOR_WLK then some false else some true) = _
        rw [if_pos hl]
      unfold read_package
      rw [training_classes_eval.2.2, hc]
      rfl

/-- Witness for C5: a list with a null element is rejected, a short list is
rejected, and the sample running list is unpacked into a Running record. -/
theorem read_package_validation_witness :
    (none ∈ ([some (15000 : ℚ), none] : List (Option ℚ)) ∧
      read_package RUN [some 15000, none] = .error BAD_DATA) ∧
    (none ∉ ([some (15000 : ℚ), some 1] : List (Option ℚ)) ∧
      ([some (15000 : ℚ), some 1] : List (Option ℚ)).length ≠ LEN_FOR_RUN ∧
      read_package RUN [some 15000, some 1] = .error BAD_DATA) ∧
    read_package RUN [some 15000, some 1, some 75] = .ok (Running.mk 15000 1 75) :=
  ⟨⟨by decide, (read_package_validation.1 [some 15000, none] (by decide)).2.1⟩,
    ⟨by decide, by decide,
      (read_package_validation.2.1 [some 15000, some 1] (by decide)).2.1
        (by decide)⟩,
    read_package_validation.2.2.2.1 15000 1 75⟩

/-- Counterexample to claim C8: on the sample running record, whose cache
field mean_speed_km_h is 0 after construction, calling get_mean_speed changes
that field to 9.75, so the call does not leave every field unchanged. -/
theorem get_mean_speed_mutates_cache :
    ((Running.mk 15000 1 75).get_mean_speed).2.mean_speed_km_h
      ≠ (Running.mk 15000 1 75).mean_speed_km_h ∧
    ((Running.mk 15000 1 75).get_mean_speed).2.mean_speed_km_h = 9.75 ∧
    (Running.mk 15000 1 75).mean_speed_km_h = 0 := by
  refine ⟨?_, ?_, rfl⟩
  · show (15000 * 0.65 / 1000 / 1 : ℚ) ≠ 0
    norm_num
  · show (15000 * 0.65 / 1000 / 1 : ℚ) = 9.75
    norm_num

/-- Claim C8 amended: get_distance reads the record without returning a new
state; get_mean_speed and get_spent_calories leave the class tag and every
sensor field unchanged and only write the cache fields mean_speed_km_h and
spent_calories with the values they return, and show_training_info does the
same through them. -/
theorem formula_methods_frame :
    ∀ t : Training,
      ((t.get_mean_speed).2.kind = t.kind ∧
        (t.get_mean_speed).2.action = t.action ∧
        (t.get_mean_speed).2.duration = t.duration ∧
        (t.get_mean_speed).2.weight = t.weight ∧
        (t.get_mean_speed).2.height = t.height ∧
        (t.get_mean_speed).2.length_pool = t.length_pool ∧
        (t.get_mean_speed).2.count_pool = t.count_pool ∧
        (t.get_mean_speed).2.spent_calories = t.spent_calories ∧
        (t.get_mean_speed).2.mean_speed_km_h = (t.get_mean_speed).1) ∧
      ((t.get_spent_calories).2.kind = t.kind ∧
        (t.get_spent_calories).2.action = t.action ∧
        (t.get_spent_calories).2.duration = t.duration ∧
        (t.get_spent_calories).2.weight = t.weight ∧
        (t.get_spent_calories).2.height = t.height ∧
        (t.get_spent_calories).2.length_pool = t.length_pool ∧
        (t.get_spent_calories).2.count_pool = t.count_pool ∧
        (t.get_spent_calories).2.spent_calories = (t.get_spent_calories).1 ∧
        (t.get_spent_calories).2.mean_speed_km_h = (t.get_mean_speed).1) ∧
      ((t.show_training_info).2.kind = t.kind ∧
        (t.show_training_info).2.action = t.action ∧
        (t.show_training_info).2.duration = t.duration ∧
        (t.show_training_info).2.weight = t.weight ∧
        (t.show_training_info).2.height = t.height ∧
        (t.show_training_info).2.length_pool = t.length_pool ∧
        (t.show_training_info).2.count_pool = t.count_pool) := by
  rintro ⟨k, a, d, w, h, lp, cp, sc, ms⟩
  cases k <;>
    exact ⟨⟨rfl, rfl, rfl, rfl, rfl, rfl, rfl, rfl, rfl⟩,
      ⟨rfl, rfl, rfl, rfl, rfl, rfl, rfl, rfl, rfl⟩,
      rfl, rfl, rfl, rfl, rfl, rfl, rfl⟩

/-- Claim C9: under the invariants (positive duration and weight, and a
positive stored height for a SportsWalking record), the three formula methods
evaluate with every division having a nonzero divisor: the checked variants,
which report any zero divisor, return exactly the unchecked values. -/
theorem no_division_by_zero (t : Training) (hd : 0 < t.duration)
    (hw : 0 < t.weight) (hh : t.kind = TKind.sportsWalking → 0 < t.height) :
    t.get_distanceChecked = some t.get_distance ∧
    t.get_mean_speedChecked = some (t.get_mean_speed).1 ∧
    t.get_spent_caloriesChecked = some (t.get_spent_calories).1 := by
  obtain ⟨k, a, d, w, h, lp, cp, sc, ms⟩ := t
  have hd0 : d ≠ 0 := ne_of_gt hd
  have hM : M_IN_KM ≠ 0 := by norm_num [M_IN_KM]
  cases k
  case running =>
    refine ⟨?_, ?_, ?_⟩ <;>
      simp [Training.get_distanceChecked, Training.get_mean_speedChecked,
        Training.get_spent_caloriesChecked, Training.get_distance,
        Training.get_mean_speed, Training.get_spent_calories, divC, hM, hd0]
  case sportsWalking =>
    have hh0 : h ≠ 0 := ne_of_gt (hh rfl)
    refine ⟨?_, ?_, ?_⟩ <;>
      simp [Training.get_distanceChecked, Training.get_mean_speedChecked,
        Training.get_spent_caloriesChecked, Training.get_distance,
        Training.get_mean_speed, Training.get_spent_calories, divC, hM, hd0,
        hh0]
  case swimming =>
    refine ⟨?_, ?_, ?_⟩ <;>
      simp [Training.get_distanceChecked, Training.get_mean_speedChecked,
        Training.get_spent_caloriesChecked, Training.get_distance,
        Training.get_mean_speed, Training.get_spent_calories, divC, hM, hd0]

/-- Witness for C9 at the sample walking record 9000, 1, 75, 180. -/
theorem no_division_by_zero_witness :
    (0 : ℚ) < (SportsWalking.mk 9000 1 75 180).duration ∧
    (0 : ℚ) < (SportsWalking.mk 9000 1 75 180).weight ∧
    ((SportsWalking.mk 9000 1 75 180).kind = TKind.sportsWalking →
      (0 : ℚ) < (SportsWalking.mk 9000 1 75 180).height) ∧
    ((SportsWalking.mk 9000 1 75 180).get_distanceChecked
        = some (SportsWalking.mk 9000 1 75 180).get_distance ∧
      (SportsWalking.mk 9000 1 75 180).get_mean_speedChecked
        = some ((SportsWalking.mk 9000 1 75 180).get_mean_speed).1 ∧
      (SportsWalking.mk 9000 1 75 180).get_spent_caloriesChecked
        = some ((SportsWalking.mk 9000 1 75 180).get_spent_calories).1) :=
  ⟨by norm_num [SportsWalking.mk], by norm_num [SportsWalking.mk],
    fun _ => by norm_num [SportsWalking.mk, CM_IN_METER],
    no_division_by_zero _ (by norm_num [SportsWalking.mk])
      (by norm_num [SportsWalking.mk])
      (fun _ => by norm_num [SportsWalking.mk, CM_IN_METER])⟩

/-- Helper: the summary of the sample running package, evaluated. -/
theorem run_sample_summary_eval :
    ((Running.mk 15000 1 75).show_training_info).1
      = { training_type := "Running", duration := 1, distance := 9.75,
          speed := 9.75, calories := 797.805 } := by
  show InfoMessage.mk _ _ _ _ _ = _
  rw [InfoMessage.mk.injEq]
  refine ⟨rfl, rfl, ?_, ?_, ?_⟩
  · show (15000 * 0.65 / 1000 : ℚ) = 9.75
    norm_num
  · show (15000 * 0.65 / 1000 / 1 : ℚ) = 9.75
    norm_num
  · show ((18 * (15000 * 0.65 / 1000 / 1) + 1.79) * 75 / 1000 * (1 * 60) : ℚ)
      = 797.805
    norm_num

/-- Counterexample to claim C7: on the package RUN, 15000, 1, 75 the code
computes 797.805 kcal, which is 7.147 away from the claimed approximate value
790.658, far beyond a rounding tolerance of one thousandth. -/
theorem run_sample_calories_not_790 :
    (read_package RUN [some 15000, some 1, some 75]).map
        (fun t => ((t.show_training_info).1).calories) = .ok 797.805 ∧
    ¬ |(797.805 : ℚ) - 790.658| < 0.001 := by
  constructor
  · show Except.ok (((Running.mk 15000 1 75).show_training_info).1).calories = _
    rw [run_sample_summary_eval]
  · rw [abs_of_nonneg (by norm_num)]
    norm_num

/-- Claim C7 amended: the package RUN, 15000, 1, 75 yields distance 9.750 km,
mean speed 9.750 km/h and exactly 797.805 kcal. -/
theorem run_sample_summary :
    (read_package RUN [some 15000, some 1, some 75]).map
        (fun t => (((t.show_training_info).1).distance,
          ((t.show_training_info).1).speed,
          ((t.show_training_info).1).calories))
      = .ok ((9.75 : ℚ), (9.75 : ℚ), (797.805 : ℚ)) := by
  show Except.ok (((Running.mk 15000 1 75).show_training_info).1.distance,
    ((Running.mk 15000 1 75).show_training_info).1.speed,
    ((Running.mk 15000 1 75).show_training_info).1.calories) = _
  rw [run_sample_summary_eval]

/-- Helper: the summary of a running record with a duration of 1000 hours,
evaluated; the large duration exposes the grouping behavior of the format. -/
theorem run_1000h_summary_eval :
    ((Running.mk 15000 1000 75).show_training_info).1
      = { training_type := "Running", duration := 1000, distance := 9.75,
          speed := 0.00975, calories := 8844.75 } := by
  show InfoMessage.mk _ _ _ _ _ = _
  rw [InfoMessage.mk.injEq]
  refine ⟨rfl, rfl, ?_, ?_, ?_⟩
  · show (15000 * 0.65 / 1000 : ℚ) = 9.75
    norm_num
  · show (15000 * 0.65 / 1000 / 1000 : ℚ) = 0.00975
    norm_num
  · show ((18 * (15000 * 0.65 / 1000 / 1000) + 1.79) * 75 / 1000 * (1000 * 60) : ℚ)
      = 8844.75
    norm_num

/-- Helper: format3 on 1000 renders without a thousands separator. -/
theorem format3_1000 : format3 (1000 : ℚ) = "1000.000" := by
  have h : rne ((1000 : ℚ) * 1000) = 1000000 := by
    simp only [rne]
    norm_num
  simp only [format3, h]
  decide

/-- Helper: formatComma3 on 9.75 appends three decimals. -/
theorem formatComma3_975 : formatComma3 (9.75 : ℚ) = "9.750" := by
  have h : rne ((9.75 : ℚ) * 1000) = 9750 := by
    simp only [rne]
    norm_num
  simp only [formatComma3, h]
  decide

/-- Helper: formatComma3 on 0.00975 rounds 9.75 thousandths up to 0.010. -/
theorem formatComma3_000975 : formatComma3 (0.00975 : ℚ) = "0.010" := by
  have h : rne ((0.00975 : ℚ) * 1000) = 10 := by
    simp only [rne]
    norm_num
  simp only [formatComma3, h]
  decide

/-- Helper: formatComma3 on 8844.75 groups the integer digits with a comma. -/
theorem formatComma3_884475 : formatComma3 (8844.75 : ℚ) = "8,844.750" := by
  have h : rne ((8844.75 : ℚ) * 1000) = 8844750 := by
    simp only [rne]
    norm_num
  simp only [formatComma3, h]
  decide

/-- Helper: the full message of the 1000 hour running record, evaluated. -/
theorem run_1000h_message_eval :
    (((Running.mk 15000 1000 75).show_training_info).1).get_message
      = "Тип тренировки: Running; Длительность: 1000.000 ч.; Дистанция: 9.750 км; Ср. скорость: 0.010 км/ч; Потрачено ккал: 8,844.750." := by
  rw [run_1000h_summary_eval]
  simp only [InfoMessage.get_message, format3_1000, formatComma3_975,
    formatComma3_000975, formatComma3_884475]
  decide

/-- Counterexample to claim C6: in the summary of a 1000 hour running record
the duration field is rendered as 1000.000 without a comma thousands
separator, so the message differs from the claimed template in which all four
numeric fields carry thousands separators. -/
theorem duration_not_grouped :
    (((Running.mk 15000 1000 75).show_training_info).1).get_message
      = "Тип тренировки: Running; Длительность: 1000.000 ч.; Дистанция: 9.750 км; Ср. скорость: 0.010 км/ч; Потрачено ккал: 8,844.750." ∧
    (((Running.mk 15000 1000 75).show_training_info).1).get_message
      ≠ "Тип тренировки: Running; Длительность: 1,000.000 ч.; Дистанция: 9.750 км; Ср. скорость: 0.010 км/ч; Потрачено ккал: 8,844.750." := by
  refine ⟨run_1000h_message_eval, ?_⟩
  rw [run_1000h_message_eval]
  decide

/-- Claim C6 amended: every message follows the exact template, the activity
name is the class identifier of the variant, and every numeric field carries
exactly three decimal digits; distance, speed and calories are rendered with
comma thousands grouping while the duration is rendered without grouping. -/
theorem message_template_and_decimals :
    (∀ m : InfoMessage, m.get_message
      = "Тип тренировки: " ++ m.training_type
        ++ ("; Длительность: " ++ format3 m.duration)
        ++ (" ч.; Дистанция: " ++ formatComma3 m.distance)
        ++ (" км; Ср. скорость: " ++ formatComma3 m.speed)
        ++ (" км/ч; Потрачено ккал: " ++ formatComma3 m.calories)
        ++ ".") ∧
    (∀ t : Training, (((t.show_training_info).1).training_type
      = className t.kind)) ∧
    (∀ q : ℚ,
      (∃ s, format3 q = s ++ ("." ++ pad3 ((rne (q * 1000)).natAbs % 1000))
        ∧ (pad3 ((rne (q * 1000)).natAbs % 1000)).length = 3) ∧
      (∃ s, formatComma3 q = s ++ ("." ++ pad3 ((rne (q * 1000)).natAbs % 1000))
        ∧ (pad3 ((rne (q * 1000)).natAbs % 1000)).length = 3)) := by
  refine ⟨fun m => rfl, fun t => rfl, fun q => ⟨⟨_, rfl, ?_⟩, ⟨_, rfl, ?_⟩⟩⟩
  · exact pad3_length _ (Nat.mod_lt _ (by norm_num))
  · exact pad3_length _ (Nat.mod_lt _ (by norm_num))

/-- Counterexample to claim C10: in homework.py a WLK package whose height
element is null is not passed through into a constructed record; the
constructor divides the height by 100, which fails on a null with a TypeError
style error before any record exists. -/
theorem hw_wlk_null_height_type_error :
    Homework.read_package "WLK" [some 9000, some 1, some 75, none]
      = .error .typeError := rfl

/-- Claim C10 amended: the homework read_package performs no validation: an
unrecognized tag fails with a dictionary lookup error, a recognized tag with
a list of the wrong length fails with a constructor arity error, and null
elements are passed through unchecked into the record for SWM and RUN and for
the first three WLK positions, while a null WLK height makes the constructor
arithmetic fail with a TypeError style error. -/
theorem hw_read_package_unchecked :
    (∀ tag : String, ∀ dat : List (Option ℚ), tag ≠ "SWM" → tag ≠ "RUN" →
      tag ≠ "WLK" → Homework.read_package tag dat = .error .keyError) ∧
    (∀ dat : List (Option ℚ),
      (dat.length ≠ 5 → Homework.read_package "SWM" dat = .error .typeError) ∧
      (dat.length ≠ 3 → Homework.read_package "RUN" dat = .error .typeError) ∧
      (dat.length ≠ 4 → Homework.read_package "WLK" dat = .error .typeError)) ∧
    (∀ a d w : Option ℚ, Homework.read_package "RUN" [a, d, w]
      = .ok { kind := .running, action := a, duration := d, weight := w }) ∧
    (∀ a d w lp cp : Option ℚ, Homework.read_package "SWM" [a, d, w, lp, cp]
      = .ok { kind := .swimming, action := a, duration := d, weight := w,
              length_pool := lp, count_pool := cp }) ∧
    (∀ a d w : Option ℚ, ∀ h : ℚ, Homework.read_package "WLK" [a, d, w, some h]
      = .ok { kind := .sportsWalking, action := a, duration := d, weight := w,
              height := some (h / 100) }) ∧
    (∀ a d w : Option ℚ, Homework.read_package "WLK" [a, d, w, none]
      = .error .typeError) := by
  refine ⟨fun tag dat h1 h2 h3 => ?_,
    fun dat => ⟨fun hl => ?_, fun hl => ?_, fun hl => ?_⟩,
    fun a d w => rfl, fun a d w lp cp => rfl, fun a d w h => rfl,
    fun a d w => rfl⟩
  · unfold Homework.read_package
    rw [if_neg h1, if_neg h2, if_neg h3]
  · unfold Homework.read_package
    rw [if_pos rfl, if_neg hl]
  · unfold Homework.read_package
    rw [if_neg (by decide : ¬ ("RUN" : String) = "SWM"), if_pos rfl, if_neg hl]
  · unfold Homework.read_package
    rw [if_neg (by decide : ¬ ("WLK" : String) = "SWM"),
      if_neg (by decide : ¬ ("WLK" : String) = "RUN"), if_pos rfl, if_neg hl]

/-- Witness for C10 amended: the unknown tag XYZ fails with the lookup error,
a short RUN list fails with the arity error, and a RUN list with a null
duration is stored as such in the constructed record. -/
theorem hw_read_package_unchecked_witness :
    Homework.read_package "XYZ" [some 1, some 2, some 3] = .error .keyError ∧
    Homework.read_package "RUN" [some 15000, some 1] = .error .typeError ∧
    Homework.read_package "RUN" [some 15000, none, some 75]
      = .ok { kind := .running, action := some 15000, duration := none,
              weight := some 75 } :=
  ⟨hw_read_package_unchecked.1 "XYZ" [some 1, some 2, some 3] (by decide)
      (by decide) (by decide),
    (hw_read_package_unchecked.2.1 [some 15000, some 1]).2.1 (by decide),
    hw_read_package_unchecked.2.2.1 (some 15000) none (some 75)⟩
